import Mathlib

/-!
Verification of the GripDeck firmware core against its specification.

The development shallowly embeds the firmware's data model and the
operations the specification talks about:

* the USB vendor binary protocol (`handleVendorReport`,
  `sendVendorResponse`, `getVendorResponse` from
  src/managers/USBManager.cpp),
* the BLE text-command dispatcher and response chunking
  (`BLEManager::handleCommand`, `BLEManager::sendResponse`,
  `CharacteristicCallbacks::onWrite` from src/managers/BLEManager.cpp),
* the power sequencer (`PowerManager::trySetSBCPower`) and the battery
  telemetry calculations (`calculateBatteryPercentage`,
  `calculateEstimatedTimeToFullyCharge` from
  src/managers/PowerManager.cpp),
* the published power snapshot (`PowerManager::setPowerData` from
  include/managers/PowerManager.h), and
* the deep-sleep watchdog (`SystemManager::updateDeepSleepWatchdog`,
  `SystemManager::shouldEnterDeepSleep` from
  src/managers/SystemManager.cpp).

Machine floats of the source are modelled over `ℚ`; `uint32_t`
millisecond clocks are modelled as `ℕ` (the firmware's clocks are
monotone within a session, so `Nat` subtraction agrees with the
modular `uint32_t` subtraction on the states considered).  Bytes are
modelled as `ℕ` values and C strings as `String`/`List Char`.
-/

namespace GripDeck

/-! ### Configuration constants (include/config/Config.h) -/

/-- BATTERY_MIN_PERCENTAGE: minimum battery percentage to allow SBC startup. -/
def BATTERY_MIN_PERCENTAGE : ℚ := 5

/-- BATTERY_CAPACITY_MAH: battery capacity in mAh. -/
def BATTERY_CAPACITY_MAH : ℚ := 4500

/-- BATTERY_SAVING_MODE: battery percentage for low power mode. -/
def BATTERY_SAVING_MODE : ℚ := 15

/-- MIN_BATTERY_CHARGING_VOLTAGE: minimum voltage to consider charging. -/
def MIN_BATTERY_CHARGING_VOLTAGE : ℚ := 4

/-- PROTOCOL_MAGIC: the 16-bit magic constant of the vendor protocol
("GD" in ASCII, 0x4744). -/
def PROTOCOL_MAGIC : ℕ := 0x4744

/-- PROTOCOL_VERSION of the vendor protocol. -/
def PROTOCOL_VERSION : ℕ := 0x01

/-- VENDOR_REPORT_ID of the vendor HID report. -/
def VENDOR_REPORT_ID : ℕ := 6

/-- sizeof(VendorPacket): 2 + 1 + 1 + 4 + 24 bytes, packed. -/
def VENDOR_PACKET_SIZE : ℕ := 32

/-- DISABLE_USB_HID is false in Config.h, so isUSBHIDEnabled() is true. -/
def DISABLE_USB_HID : Bool := false

/-- DEEP_SLEEP_WATCHDOG_TIMEOUT_MS: inactivity before deep sleep. -/
def DEEP_SLEEP_WATCHDOG_TIMEOUT_MS : ℕ := 30000

/-- DEEP_SLEEP_ACTIVITY_RESET_INTERVAL_MS: watchdog check interval. -/
def DEEP_SLEEP_ACTIVITY_RESET_INTERVAL_MS : ℕ := 1000

/-- BLE_CMD_WAS_SUCCESSFUL: reply token for a successful command. -/
def BLE_CMD_WAS_SUCCESSFUL : String := "1"

/-- BLE_CMD_WAS_FAILURE: reply token for a failed command. -/
def BLE_CMD_WAS_FAILURE : String := "0"

/-! ### Vendor binary protocol (src/managers/USBManager.cpp)

`VendorPacket` is the fixed 32-byte frame `{magic:u16, version:u8,
command:u8, sequence:u32, payload:24 bytes}`.  The firmware keeps one
pending response (`vendorResponse`, `vendorResponseReady`), modelled
here as `VendorSlot`. -/

/-- CMD_PING = 0x01 from enum VendorCommand. -/
def CMD_PING : ℕ := 0x01

/-- CMD_GET_STATUS = 0x02 from enum VendorCommand. -/
def CMD_GET_STATUS : ℕ := 0x02

/-- CMD_GET_INFO = 0x03 from enum VendorCommand. -/
def CMD_GET_INFO : ℕ := 0x03

/-- RESP_PONG = 0x81 from enum VendorResponse. -/
def RESP_PONG : ℕ := 0x81

/-- RESP_STATUS = 0x82 from enum VendorResponse. -/
def RESP_STATUS : ℕ := 0x82

/-- RESP_INFO = 0x83 from enum VendorResponse. -/
def RESP_INFO : ℕ := 0x83

/-- RESP_ERROR = 0xFF from enum VendorResponse. -/
def RESP_ERROR : ℕ := 0xFF

/-- The packed VendorPacket frame.  The payload is a list of byte
values; the struct always carries exactly 24 payload bytes. -/
structure VendorPacket where
  magic : ℕ
  protocol_version : ℕ
  command : ℕ
  sequence : ℕ
  payload : List ℕ
deriving DecidableEq, Repr

/-- The single-slot pending-response holder: the fields
`vendorResponse` and `vendorResponseReady` of USBManager. -/
structure VendorSlot where
  response : VendorPacket
  ready : Bool
deriving DecidableEq, Repr

/-- Live data read by the vendor command handlers: the bytes of the
status payload built by buildStatusPayload (from the power snapshot
and uptime) and of the info payload built by buildInfoPayload.  These
come from hardware state the protocol logic does not inspect, so the
handlers are parameterised over them. -/
structure VendorEnv where
  statusPayload : List ℕ
  infoPayload : List ℕ

/-- USBManager::sendVendorResponse: zero the slot, fill in the magic,
protocol version, response command and the request's sequence number,
and copy at most 24 payload bytes (the rest stays zero); then mark the
slot ready. -/
def sendVendorResponse (request : VendorPacket) (response_type : ℕ)
    (payload : List ℕ) : VendorSlot :=
  { response :=
      { magic := PROTOCOL_MAGIC
        protocol_version := PROTOCOL_VERSION
        command := response_type
        sequence := request.sequence
        payload := payload.take 24 ++ List.replicate (24 - payload.length) 0 }
    ready := true }

/-- USBManager::handlePingCommand. -/
def handlePingCommand (request : VendorPacket) : VendorSlot :=
  sendVendorResponse request RESP_PONG []

/-- USBManager::handleGetStatusCommand. -/
def handleGetStatusCommand (env : VendorEnv) (request : VendorPacket) :
    VendorSlot :=
  sendVendorResponse request RESP_STATUS env.statusPayload

/-- USBManager::handleGetInfoCommand. -/
def handleGetInfoCommand (env : VendorEnv) (request : VendorPacket) :
    VendorSlot :=
  sendVendorResponse request RESP_INFO env.infoPayload

/-- USBManager::handleVendorReport: drop the frame (slot unchanged)
when the report id, length, magic or protocol version mismatch;
otherwise dispatch on the command byte.  An unrecognized command byte
falls into the default branch, which only logs — the slot is
unchanged. -/
def handleVendorReport (env : VendorEnv) (report_id : ℕ) (len : ℕ)
    (request : VendorPacket) (slot : VendorSlot) : VendorSlot :=
  if DISABLE_USB_HID = true ∨ report_id ≠ VENDOR_REPORT_ID ∨
      len ≠ VENDOR_PACKET_SIZE then
    slot
  else if request.magic ≠ PROTOCOL_MAGIC ∨
      request.protocol_version ≠ PROTOCOL_VERSION then
    slot
  else if request.command = CMD_PING then
    handlePingCommand request
  else if request.command = CMD_GET_STATUS then
    handleGetStatusCommand env request
  else if request.command = CMD_GET_INFO then
    handleGetInfoCommand env request
  else
    slot

/-- USBManager::getVendorResponse: when a response is pending, hand it
out and clear the slot; otherwise synthesize an error packet with
command = RESP_ERROR and sequence = 0 instead of blocking. -/
def getVendorResponse (slot : VendorSlot) : VendorPacket × VendorSlot :=
  if slot.ready = true then
    (slot.response, { slot with ready := false })
  else
    ({ magic := PROTOCOL_MAGIC
       protocol_version := PROTOCOL_VERSION
       command := RESP_ERROR
       sequence := 0
       payload := List.replicate 24 0 }, slot)

/-! ### Battery telemetry (src/managers/PowerManager.cpp)

`calculateBatteryPercentage` interpolates over the fixed LiPo table
`voltagePoints` / `percentagePoints`.  The C loop scans segments
`[points[i], points[i+1]]` in order and takes the first bracketing
one; `Segment` packages the two endpoints of such a segment and
`interpScan` is the scanning loop. -/

/-- One segment of the calibration table: consecutive entries of the
parallel arrays voltagePoints / percentagePoints. -/
structure Segment where
  v0 : ℚ
  p0 : ℚ
  v1 : ℚ
  p1 : ℚ
deriving DecidableEq, Repr

/-- The scanning loop of calculateBatteryPercentage: return the
linear interpolation of the first segment bracketing the voltage,
`none` when no segment brackets it (the C code then keeps the
initial value of the output variable). -/
def interpScan (v : ℚ) : List Segment → Option ℚ
  | [] => none
  | s :: rest =>
    if s.v0 ≤ v ∧ v ≤ s.v1 then
      some (s.p0 + (v - s.v0) / (s.v1 - s.v0) * (s.p1 - s.p0))
    else
      interpScan v rest

/-- The LiPo discharge-curve table of calculateBatteryPercentage,
as consecutive-point segments:
voltagePoints    = 3.0, 3.3, 3.5, 3.6, 3.7, 3.8, 3.9, 4.0, 4.1, 4.2
percentagePoints = 0, 5, 15, 25, 40, 60, 75, 85, 95, 100. -/
def lipoSegments : List Segment :=
  [⟨3, 0, 33/10, 5⟩, ⟨33/10, 5, 35/10, 15⟩, ⟨35/10, 15, 36/10, 25⟩,
   ⟨36/10, 25, 37/10, 40⟩, ⟨37/10, 40, 38/10, 60⟩, ⟨38/10, 60, 39/10, 75⟩,
   ⟨39/10, 75, 4, 85⟩, ⟨4, 85, 41/10, 95⟩, ⟨41/10, 95, 42/10, 100⟩]

/-- The final clamp of calculateBatteryPercentage:
`if (finalPercentage < 0.0f) finalPercentage = 0.0f;` followed by
`if (finalPercentage > 100.0f) finalPercentage = 100.0f;`. -/
def clampPercent (x : ℚ) : ℚ :=
  if x < 0 then 0 else if x > 100 then 100 else x

/-- PowerManager::calculateBatteryPercentage.  Voltage below
LIPO_MIN_VOLTAGE (3.0) clamps to 0, at or above LIPO_MAX_VOLTAGE
(4.2) clamps to 100.  Otherwise the base percentage is interpolated
from the table; under heavy discharge (current < -0.5 A) a sag
compensation recomputes the percentage at voltage + |current| * 0.1
and adds the delta (the compensation stays 0 when the compensated
voltage falls outside the table).  The result is clamped to
[0, 100]. -/
def calculateBatteryPercentage (current voltage : ℚ) : ℚ :=
  if voltage < 3 then 0
  else if 42/10 ≤ voltage then 100
  else
    let basePercentage := (interpScan voltage lipoSegments).getD 0
    let voltageSagCompensation :=
      if current < -(1/2) then
        match interpScan (voltage + |current| * (1/10)) lipoSegments with
        | some compensatedPercentage => compensatedPercentage - basePercentage
        | none => 0
      else 0
    let finalPercentage := basePercentage + voltageSagCompensation
    clampPercent finalPercentage

/-- PowerManager::calculateEstimatedTimeToFullyCharge.  Returns 0
("not applicable") when the charger voltage is below
MIN_BATTERY_CHARGING_VOLTAGE, the charger current is at most 0.01 A,
or the percentage is at or above 99.  With a discharging battery
(battery current negative) the effective charging current is the net
chargerCurrent + batteryCurrent, itself floored at 0.01 A.  Otherwise
the linear projection (100 - percentage) / ratePerHour hours is
truncated to whole seconds (the uint32_t cast truncates toward
zero). -/
def calculateEstimatedTimeToFullyCharge (chargerCurrent chargerVoltage
    batteryCurrent _batteryVoltage percentage : ℚ) : ℕ :=
  if chargerVoltage < MIN_BATTERY_CHARGING_VOLTAGE then 0
  else if chargerCurrent ≤ 1/100 then 0
  else if percentage ≥ 99 then 0
  else
    let effectiveChargingCurrent :=
      if batteryCurrent ≥ 0 then batteryCurrent
      else chargerCurrent + batteryCurrent
    if batteryCurrent < 0 ∧ effectiveChargingCurrent ≤ 1/100 then 0
    else
      let chargeRatePerHour :=
        effectiveChargingCurrent * 1000 * 100 / BATTERY_CAPACITY_MAH
      if chargeRatePerHour ≤ 0 then 0
      else
        let remainingPercentage := 100 - percentage
        let hoursToCharge := remainingPercentage / chargeRatePerHour
        (⌊hoursToCharge * 3600⌋).toNat

/-! ### Published power snapshot (include/managers/PowerManager.h) -/

/-- struct BatteryData. -/
structure BatteryData where
  voltage : ℚ
  current : ℚ
  power : ℚ
  percentage : ℚ
  toFullyDischargeS : ℕ
deriving DecidableEq, Repr

/-- struct ChargerData. -/
structure ChargerData where
  voltage : ℚ
  current : ℚ
  power : ℚ
  connected : Bool
  toFullyChargeS : ℕ
deriving DecidableEq, Repr

/-- struct PowerData, the single published snapshot. -/
structure PowerData where
  battery : BatteryData
  charger : ChargerData
  timestamp : ℕ
  powerSavingMode : Bool
deriving DecidableEq, Repr

/-- The in-class initializer of PowerManager::powerData:
`{ { 0.0f, 0.0f, 0.0f, 0 }, { 0.0f, 0.0f, 0.0f, false }, 0, false }`
(the trailing aggregate members are value-initialized to zero). -/
def initialPowerData : PowerData :=
  { battery := ⟨0, 0, 0, 0, 0⟩
    charger := ⟨0, 0, 0, false, 0⟩
    timestamp := 0
    powerSavingMode := false }

/-- PowerManager::setPowerData: publish the new readings and derive
powerSavingMode as `!charger.connected && (battery.percentage <=
BATTERY_SAVING_MODE)`.  (In the source this runs under the power-data
mutex; a failed acquisition leaves the snapshot unchanged, which this
pure update does not need to model.) -/
def setPowerData (_pd : PowerData) (battery : BatteryData)
    (charger : ChargerData) (now : ℕ) : PowerData :=
  { battery := battery
    charger := charger
    timestamp := now
    powerSavingMode :=
      !charger.connected && decide (battery.percentage ≤ BATTERY_SAVING_MODE) }

/-- The powerSavingMode invariant claimed by the specification:
the flag is set exactly when the charger is disconnected and the
battery percentage is at or below the saving-mode threshold. -/
def powerSavingInvariant (pd : PowerData) : Prop :=
  pd.powerSavingMode =
    (!pd.charger.connected && decide (pd.battery.percentage ≤ BATTERY_SAVING_MODE))

/-! ### Power sequencer (src/managers/PowerManager.cpp)

`trySetSBCPower` drives the PIN_SBC_POWER_MOSFET line (modelled as a
`Bool`, `true` = HIGH) and busy-polls `usbManager->isUSBConnected()`
with `delay(100)` for up to USB_CONNECTION_TIMEOUT = 15000 ms.  The
poll budget is therefore 150 iterations; the connection flag over
successive poll samples is modelled as a function `ℕ → Bool`. -/

/-- USB_CONNECTION_TIMEOUT / delay(100): the number of 100 ms poll
iterations available to the power-on/off handshake. -/
def USB_POLL_BUDGET : ℕ := 150

/-- The power-off de-acknowledgement loop
`while (usbManager->isUSBConnected() && millis() - startTime < USB_CONNECTION_TIMEOUT) delay(100);`
counted as the number of delay iterations performed: it runs while
the link still presents as connected and the budget is not
exhausted. -/
def usbWaitWhileConnected : (ℕ → Bool) → ℕ → ℕ
  | _, 0 => 0
  | conn, fuel + 1 =>
    if conn 0 = true then usbWaitWhileConnected (fun k => conn (k + 1)) fuel + 1
    else 0

/-- The power-on acknowledgement loop
`while (!usbManager->isUSBConnected() && millis() - startTime < USB_CONNECTION_TIMEOUT) delay(100);`
counted the same way: it runs while the link does not yet present as
connected. -/
def usbWaitWhileNotConnected : (ℕ → Bool) → ℕ → ℕ
  | _, 0 => 0
  | conn, fuel + 1 =>
    if conn 0 = false then
      usbWaitWhileNotConnected (fun k => conn (k + 1)) fuel + 1
    else 0

/-- Status indications relevant to the sequencer and dispatcher
(mirror of the STATUS_* values passed to StatusManager::setStatus). -/
inductive StatusCode where
  | powerOn
  | powerOff
  | shutdown
  | bleCmdError
deriving DecidableEq, Repr

/-- Environment read by the sequencer: the published battery
percentage (canPowerOnSBC) and the wired-link presence flag sampled
at successive poll iterations (isUSBConnected). -/
structure PowerEnv where
  percentage : ℚ
  usbConnected : ℕ → Bool

/-- The `on = false` branch of PowerManager::trySetSBCPower: send the
system-power key, poll for the host to stop presenting as connected
for up to the timeout, then deassert the control line regardless.
Result: the final line level (always LOW) and the number of waiting
iterations of the de-acknowledgement poll loop. -/
def trySetSBCPowerOff (env : PowerEnv) (_line : Bool) : Bool × ℕ :=
  let waitIters := usbWaitWhileConnected env.usbConnected USB_POLL_BUDGET
  (false, waitIters)

/-- The `on = true` branch of PowerManager::trySetSBCPower: admission
(canPowerOnSBC, i.e. percentage at or above BATTERY_MIN_PERCENTAGE,
and not already on) gates asserting the line; on admission failure
the line is untouched and STATUS_POWER_OFF is indicated.  Otherwise
the line goes HIGH and the sequencer waits for host acknowledgement;
on timeout without acknowledgement it recurses into the power-off
path.  Result: final line level and status indications emitted. -/
def trySetSBCPowerOn (env : PowerEnv) (line : Bool) :
    Bool × List StatusCode :=
  let canPower := decide (env.percentage ≥ BATTERY_MIN_PERCENTAGE)
  if canPower = false ∨ line = true then
    (line, [StatusCode.powerOff])
  else
    let iters := usbWaitWhileNotConnected env.usbConnected USB_POLL_BUDGET
    if env.usbConnected iters = true then
      (true, [])
    else
      ((trySetSBCPowerOff env true).1, [])

/-! ### BLE text-command dispatcher (src/managers/BLEManager.cpp) -/

/-- enum BLECommand. -/
inductive BLECommand where
  | powerInfo
  | powerOn
  | powerOff
  | shutdown
  | hidKeyboardPress
  | hidKeyboardHold
  | hidKeyboardRelease
  | hidKeyboardType
  | hidMouseMove
  | hidMousePress
  | hidMouseHold
  | hidMouseRelease
  | hidMouseScroll
  | hidGamepadPress
  | hidGamepadHold
  | hidGamepadRelease
  | hidGamepadRightAxis
  | hidGamepadLeftAxis
  | hidSystemPower
  | systemInfo
  | systemRestart
  | deepSleepInfo
  | deepSleepEnable
  | deepSleepDisable
  | help
  | syntaxError
  | unknown
deriving DecidableEq, Repr

/-- struct BLEMessage, restricted to the fields handleCommand reads:
the parsed command id and the parsed-field count (the field contents
only flow into the USB layer, which is abstracted by `HIDEnv`). -/
structure BLEMessage where
  command : BLECommand
  dataCount : ℕ
deriving DecidableEq, Repr

/-- Boolean results of the USBManager enqueue calls made by
handleCommand (each returns whether the HID message was accepted). -/
structure HIDEnv where
  sendKeyPress : Bool
  sendKeyHold : Bool
  sendKeyRelease : Bool
  typeText : Bool
  sendMouseMove : Bool
  sendMousePress : Bool
  sendMouseHold : Bool
  sendMouseRelease : Bool
  sendMouseScroll : Bool
  sendGamepadPress : Bool
  sendGamepadHold : Bool
  sendGamepadRelease : Bool
  sendGamepadRightAxis : Bool
  sendGamepadLeftAxis : Bool
  sendSystemPowerKey : Bool

/-- BLE_CMD_UNKNOWN_STRING. -/
def BLE_CMD_UNKNOWN_STRING : String :=
  "Unknown command, type 'HELP' for a list of available commands."

/-- Everything handleCommand consults: the sequencer environment, the
HID enqueue results, and the strings produced by the info queries
(getPowerInfo, getSystemInfo, getDeepSleepInfo and the static help
text, all formatted outside the dispatcher). -/
structure BLEEnv where
  power : PowerEnv
  hid : HIDEnv
  powerInfo : String
  systemInfo : String
  deepSleepInfo : String
  helpText : String

/-- The outcome of dispatching one BLEMessage: the replies passed to
sendResponse in order, the final control-line level, the status
indications emitted in order, and the number of waiting iterations
performed by the power-off de-acknowledgement poll (0 for commands
that never reach it). -/
structure CommandResult where
  replies : List String
  line : Bool
  statuses : List StatusCode
  offWaitIters : ℕ
deriving Repr

/-- The reply token for a Bool-returning USB enqueue call. -/
def boolReply (ok : Bool) : String :=
  if ok then BLE_CMD_WAS_SUCCESSFUL else BLE_CMD_WAS_FAILURE

/-- The common shape of the HID command cases of handleCommand: with
at least `need` parsed fields, forward to the USB layer and reply
with its result; otherwise reply failure without attempting partial
execution. -/
def hidCase (msg : BLEMessage) (need : ℕ) (ok : Bool) (line : Bool) :
    CommandResult :=
  if msg.dataCount ≥ need then
    ⟨[boolReply ok], line, [], 0⟩
  else
    ⟨[BLE_CMD_WAS_FAILURE], line, [], 0⟩

/-- BLEManager::handleCommand: the switch over the parsed command id.
Every branch calls sendResponse exactly once; the POWER_ON/POWER_OFF/
SHUTDOWN branches first run the sequencer and then unconditionally
reply BLE_CMD_WAS_SUCCESSFUL; the default branch (unknown or
syntax-error ids) replies BLE_CMD_UNKNOWN_STRING and flags a
transient error status. -/
def handleCommand (env : BLEEnv) (line : Bool) (msg : BLEMessage) :
    CommandResult :=
  match msg.command with
  | .powerInfo => ⟨[env.powerInfo], line, [], 0⟩
  | .powerOn =>
    let r := trySetSBCPowerOn env.power line
    ⟨[BLE_CMD_WAS_SUCCESSFUL], r.1, r.2 ++ [StatusCode.powerOn], 0⟩
  | .powerOff =>
    let r := trySetSBCPowerOff env.power line
    ⟨[BLE_CMD_WAS_SUCCESSFUL], r.1, [StatusCode.powerOff], r.2⟩
  | .shutdown =>
    let r := trySetSBCPowerOff env.power line
    ⟨[BLE_CMD_WAS_SUCCESSFUL], r.1, [StatusCode.shutdown], r.2⟩
  | .hidKeyboardPress => hidCase msg 2 env.hid.sendKeyPress line
  | .hidKeyboardHold => hidCase msg 2 env.hid.sendKeyHold line
  | .hidKeyboardRelease => hidCase msg 2 env.hid.sendKeyRelease line
  | .hidKeyboardType => hidCase msg 2 env.hid.typeText line
  | .hidMouseMove => hidCase msg 3 env.hid.sendMouseMove line
  | .hidMousePress => hidCase msg 2 env.hid.sendMousePress line
  | .hidMouseHold => hidCase msg 2 env.hid.sendMouseHold line
  | .hidMouseRelease => hidCase msg 2 env.hid.sendMouseRelease line
  | .hidMouseScroll => hidCase msg 3 env.hid.sendMouseScroll line
  | .hidGamepadPress => hidCase msg 2 env.hid.sendGamepadPress line
  | .hidGamepadHold => hidCase msg 2 env.hid.sendGamepadHold line
  | .hidGamepadRelease => hidCase msg 2 env.hid.sendGamepadRelease line
  | .hidGamepadRightAxis => hidCase msg 3 env.hid.sendGamepadRightAxis line
  | .hidGamepadLeftAxis => hidCase msg 3 env.hid.sendGamepadLeftAxis line
  | .hidSystemPower =>
    ⟨[boolReply env.hid.sendSystemPowerKey], line, [], 0⟩
  | .systemInfo => ⟨[env.systemInfo], line, [], 0⟩
  | .systemRestart =>
    ⟨[BLE_CMD_WAS_SUCCESSFUL], line, [StatusCode.shutdown], 0⟩
  | .deepSleepInfo => ⟨[env.deepSleepInfo], line, [], 0⟩
  | .deepSleepEnable => ⟨[BLE_CMD_WAS_SUCCESSFUL], line, [], 0⟩
  | .deepSleepDisable => ⟨[BLE_CMD_WAS_SUCCESSFUL], line, [], 0⟩
  | .help => ⟨[env.helpText], line, [], 0⟩
  | .syntaxError =>
    ⟨[BLE_CMD_UNKNOWN_STRING], line, [StatusCode.bleCmdError], 0⟩
  | .unknown =>
    ⟨[BLE_CMD_UNKNOWN_STRING], line, [StatusCode.bleCmdError], 0⟩

/-- BLEManager::CharacteristicCallbacks::onWrite: an inbound write is
queued for dispatch only when its raw length is positive and below
128; anything else is dropped without any reply. -/
def onWriteQueued (raw : List Char) : Bool :=
  decide (0 < raw.length) && decide (raw.length < 128)

/-! ### BLE response chunking (BLEManager::sendResponse) -/

/-- The negotiated per-notification cap of sendResponse:
`maxPayloadSize = (mtu > 3) ? (mtu - 3) : 20` and
`MAX_BLE_PACKET_SIZE = min(maxPayloadSize, 160)`. -/
def bleMaxPacketSize (mtu : ℕ) : ℕ :=
  let maxPayloadSize := if mtu > 3 then mtu - 3 else 20
  if maxPayloadSize > 160 then 160 else maxPayloadSize

/-- The chunking while-loop of sendResponse: each iteration copies the
next `min cap remaining` bytes of the response and advances the
offset.  (Written head-first so the recursion is on the strictly
shorter tail; for cap at least 1 — always true for the computed cap —
this is exactly `take cap` / `drop cap`.) -/
def chunkLoop (cap : ℕ) : List Char → List (List Char)
  | [] => []
  | x :: xs => (x :: xs.take (cap - 1)) :: chunkLoop cap (xs.drop (cap - 1))
termination_by l => l.length
decreasing_by
  simp only [List.length_cons, List.length_drop]
  omega

/-- BLEManager::sendResponse, reduced to the sequence of notification
payloads it emits: a single packet when the response fits the cap,
the chunking loop otherwise. -/
def sendResponseChunks (mtu : ℕ) (response : List Char) :
    List (List Char) :=
  let cap := bleMaxPacketSize mtu
  if response.length ≤ cap then [response]
  else chunkLoop cap response

/-! ### Deep-sleep watchdog (src/managers/SystemManager.cpp) -/

/-- The SystemManager fields driving the sleep decision. -/
structure SysState where
  lastActivityTime : ℕ
  lastActivityCheck : ℕ
  deepSleepEnabled : Bool
  deepSleepRequested : Bool
deriving DecidableEq, Repr

/-- SystemManager::shouldEnterDeepSleep: sleep is blocked while the
SBC is physically powered or a BLE client is connected. -/
def shouldEnterDeepSleep (sbcPowerOn bleConnected : Bool) : Bool :=
  !sbcPowerOn && !bleConnected

/-- SystemManager::updateDeepSleepWatchdog at one tick with
`millis() = currentTime`: every
DEEP_SLEEP_ACTIVITY_RESET_INTERVAL_MS the blocking conditions are
evaluated; when unblocked and the inactivity reaches
DEEP_SLEEP_WATCHDOG_TIMEOUT_MS a sleep request is latched, when
blocked the activity timer is reset instead (resetActivityTimer sets
it to the current millis reading). -/
def updateDeepSleepWatchdog (s : SysState) (currentTime : ℕ)
    (sbcPowerOn bleConnected : Bool) : SysState :=
  if currentTime - s.lastActivityCheck ≥
      DEEP_SLEEP_ACTIVITY_RESET_INTERVAL_MS then
    let s1 := { s with lastActivityCheck := currentTime }
    if s1.deepSleepEnabled = true then
      if shouldEnterDeepSleep sbcPowerOn bleConnected = true then
        if currentTime - s1.lastActivityTime ≥
            DEEP_SLEEP_WATCHDOG_TIMEOUT_MS then
          { s1 with deepSleepRequested := true }
        else s1
      else
        { s1 with lastActivityTime := currentTime }
    else s1
  else s

/-! ### Auxiliary predicates on calibration tables

`segChainOk` captures the shape of the tables produced by zipping the
parallel arrays voltagePoints / percentagePoints: every segment rises
in voltage, is non-decreasing in percentage, and consecutive segments
share their endpoint.  `lipoSegments` satisfies it by computation. -/

/-- Well-formedness of a segment list: ascending voltages,
non-decreasing percentages, consecutive segments sharing
endpoints. -/
def segChainOk : List Segment → Bool
  | [] => true
  | [s] => decide (s.v0 < s.v1) && decide (s.p0 ≤ s.p1)
  | s :: t :: rest =>
    decide (s.v0 < s.v1) && decide (s.p0 ≤ s.p1) &&
    decide (t.v0 = s.v1) && decide (t.p0 = s.p1) && segChainOk (t :: rest)

/-- The first voltage covered by a segment list. -/
def lowV : List Segment → ℚ
  | [] => 0
  | s :: _ => s.v0

/-- The first percentage of a segment list. -/
def lowP : List Segment → ℚ
  | [] => 0
  | s :: _ => s.p0

/-- The last voltage covered by a segment list. -/
def hiV : List Segment → ℚ
  | [] => 0
  | [s] => s.v1
  | _ :: rest => hiV rest

/-- The interpolation formula of one table segment. -/
def segVal (s : Segment) (v : ℚ) : ℚ :=
  s.p0 + (v - s.v0) / (s.v1 - s.v0) * (s.p1 - s.p0)

/-! ### Concrete inputs used by witnesses and counterexamples -/

/-- A vendor environment with empty payload data. -/
def emptyVendorEnv : VendorEnv := ⟨[], []⟩

/-- An all-zero vendor packet. -/
def zeroPacket : VendorPacket := ⟨0, 0, 0, 0, List.replicate 24 0⟩

/-- A pending-response slot with nothing staged. -/
def emptySlot : VendorSlot := ⟨zeroPacket, false⟩

/-- A frame with valid integrity fields but an unrecognized command
byte (0x04 is not among CMD_PING/CMD_GET_STATUS/CMD_GET_INFO). -/
def unknownCmdPacket : VendorPacket :=
  ⟨PROTOCOL_MAGIC, PROTOCOL_VERSION, 0x04, 9, List.replicate 24 0⟩

/-- A well-formed ping request with sequence number 42. -/
def pingPacket : VendorPacket :=
  ⟨PROTOCOL_MAGIC, PROTOCOL_VERSION, CMD_PING, 42, List.replicate 24 0⟩

/-- A frame whose magic field (0) differs from PROTOCOL_MAGIC. -/
def badMagicPacket : VendorPacket :=
  ⟨0, PROTOCOL_VERSION, CMD_PING, 5, List.replicate 24 0⟩

/-- HID enqueue results with every queue refusing (the value is
irrelevant to the claims; any fixed choice works). -/
def idleHIDEnv : HIDEnv :=
  ⟨false, false, false, false, false, false, false, false, false,
   false, false, false, false, false, false⟩

/-- A dispatcher environment with the battery at 3 % and the wired
link never presenting as connected. -/
def lowBatteryBLEEnv : BLEEnv :=
  { power := ⟨3, fun _ => false⟩
    hid := idleHIDEnv
    powerInfo := ""
    systemInfo := ""
    deepSleepInfo := ""
    helpText := "" }

/-- A watchdog state with both timers at zero, the watchdog enabled
and no pending request. -/
def sleepReadyState : SysState := ⟨0, 0, true, false⟩

/-! ## Theorems -/

/-- Auxiliary: a poll of the de-acknowledgement loop performs zero
waiting iterations when the link does not present as connected at the
first sample. -/
theorem usbWaitWhileConnected_eq_zero (conn : ℕ → Bool) (fuel : ℕ)
    (h : conn 0 = false) : usbWaitWhileConnected conn fuel = 0 := by
  cases fuel with
  | zero => rfl
  | succ n => simp [usbWaitWhileConnected, h]

/-- C5: a binary request with a wrong magic field stages no response
(the pending-response slot is unchanged), and a feature-report read
with no pending response returns the synthesized packet with
command = RESP_ERROR and sequence = 0. -/
theorem claimC5_wrong_magic_then_error_packet (env : VendorEnv)
    (slot : VendorSlot) (req : VendorPacket)
    (hmagic : req.magic ≠ PROTOCOL_MAGIC) (hready : slot.ready = false) :
    handleVendorReport env VENDOR_REPORT_ID VENDOR_PACKET_SIZE req slot
        = slot ∧
    (getVendorResponse slot).1.command = RESP_ERROR ∧
    (getVendorResponse slot).1.sequence = 0 := by
  refine ⟨?_, ?_, ?_⟩
  · unfold handleVendorReport
    rw [if_neg (by simp [DISABLE_USB_HID]), if_pos (Or.inl hmagic)]
  · simp [getVendorResponse, hready]
  · simp [getVendorResponse, hready]

/-- Witness for C5 at a concrete bad-magic frame and empty slot. -/
theorem claimC5_witness :
    badMagicPacket.magic ≠ PROTOCOL_MAGIC ∧ emptySlot.ready = false ∧
    (handleVendorReport emptyVendorEnv VENDOR_REPORT_ID VENDOR_PACKET_SIZE
        badMagicPacket emptySlot = emptySlot ∧
     (getVendorResponse emptySlot).1.command = RESP_ERROR ∧
     (getVendorResponse emptySlot).1.sequence = 0) :=
  ⟨by decide, by decide,
   claimC5_wrong_magic_then_error_packet emptyVendorEnv emptySlot
     badMagicPacket (by decide) (by decide)⟩

/-- C6: every valid binary request dispatched to a handler (ping,
get-status, get-info) stages a response carrying the request's
sequence number and the protocol magic and version. -/
theorem claimC6_response_preserves_sequence (env : VendorEnv)
    (slot : VendorSlot) (req : VendorPacket)
    (hmagic : req.magic = PROTOCOL_MAGIC)
    (hver : req.protocol_version = PROTOCOL_VERSION)
    (hcmd : req.command = CMD_PING ∨ req.command = CMD_GET_STATUS ∨
      req.command = CMD_GET_INFO) :
    (handleVendorReport env VENDOR_REPORT_ID VENDOR_PACKET_SIZE req
        slot).ready = true ∧
    (handleVendorReport env VENDOR_REPORT_ID VENDOR_PACKET_SIZE req
        slot).response.sequence = req.sequence ∧
    (handleVendorReport env VENDOR_REPORT_ID VENDOR_PACKET_SIZE req
        slot).response.magic = PROTOCOL_MAGIC ∧
    (handleVendorReport env VENDOR_REPORT_ID VENDOR_PACKET_SIZE req
        slot).response.protocol_version = PROTOCOL_VERSION := by
  unfold handleVendorReport
  rw [if_neg (by simp [DISABLE_USB_HID]), if_neg (by simp [hmagic, hver])]
  rcases hcmd with h | h | h
  · rw [if_pos h]
    simp [handlePingCommand, sendVendorResponse]
  · rw [if_neg (by simp [h, CMD_PING, CMD_GET_STATUS]), if_pos h]
    simp [handleGetStatusCommand, sendVendorResponse]
  · rw [if_neg (by simp [h, CMD_PING, CMD_GET_INFO]),
      if_neg (by simp [h, CMD_GET_STATUS, CMD_GET_INFO]), if_pos h]
    simp [handleGetInfoCommand, sendVendorResponse]

/-- Witness for C6 at a concrete ping request with sequence 42. -/
theorem claimC6_witness :
    pingPacket.magic = PROTOCOL_MAGIC ∧
    pingPacket.protocol_version = PROTOCOL_VERSION ∧
    ((handleVendorReport emptyVendorEnv VENDOR_REPORT_ID
        VENDOR_PACKET_SIZE pingPacket emptySlot).ready = true ∧
     (handleVendorReport emptyVendorEnv VENDOR_REPORT_ID
        VENDOR_PACKET_SIZE pingPacket emptySlot).response.sequence
        = pingPacket.sequence ∧
     (handleVendorReport emptyVendorEnv VENDOR_REPORT_ID
        VENDOR_PACKET_SIZE pingPacket emptySlot).response.magic
        = PROTOCOL_MAGIC ∧
     (handleVendorReport emptyVendorEnv VENDOR_REPORT_ID
        VENDOR_PACKET_SIZE pingPacket emptySlot).response.protocol_version
        = PROTOCOL_VERSION) :=
  ⟨by decide, by decide,
   claimC6_response_preserves_sequence emptyVendorEnv emptySlot pingPacket
     (by decide) (by decide) (Or.inl (by decide))⟩

/-- C9 counterexample: in the initial published snapshot (before the
first sample) the charger is disconnected and the battery percentage
(0) is at or below the saving-mode threshold, yet powerSavingMode is
false — the claimed invariant fails in the initial state. -/
theorem claimC9_initial_state_violates_invariant :
    initialPowerData.charger.connected = false ∧
    initialPowerData.battery.percentage ≤ BATTERY_SAVING_MODE ∧
    initialPowerData.powerSavingMode = false ∧
    ¬ powerSavingInvariant initialPowerData := by
  refine ⟨rfl, by norm_num [initialPowerData, BATTERY_SAVING_MODE], rfl, ?_⟩
  intro h
  simp [powerSavingInvariant, initialPowerData, BATTERY_SAVING_MODE] at h

/-- C9 (amended): after every setPowerData update the published
snapshot satisfies the invariant: powerSavingMode holds exactly when
the charger is disconnected and the battery percentage is at or below
BATTERY_SAVING_MODE. -/
theorem claimC9_invariant_after_update (pd : PowerData)
    (battery : BatteryData) (charger : ChargerData) (now : ℕ) :
    powerSavingInvariant (setPowerData pd battery charger now) := by
  simp [powerSavingInvariant, setPowerData]

/-- C10: issuing POWER_OFF when the wired link is not presenting as
connected performs zero waiting iterations in the
de-acknowledgement poll loop, still replies with the success token,
and leaves the control line LOW. -/
theorem claimC10_power_off_idempotent (env : BLEEnv) (line : Bool)
    (msg : BLEMessage) (hcmd : msg.command = BLECommand.powerOff)
    (hconn : env.power.usbConnected 0 = false) :
    (handleCommand env line msg).replies = [BLE_CMD_WAS_SUCCESSFUL] ∧
    (handleCommand env line msg).offWaitIters = 0 ∧
    (handleCommand env line msg).line = false := by
  have hwait : usbWaitWhileConnected env.power.usbConnected
      USB_POLL_BUDGET = 0 :=
    usbWaitWhileConnected_eq_zero _ _ hconn
  cases msg with
  | mk command dataCount =>
    cases hcmd
    simp [handleCommand, trySetSBCPowerOff, hwait]

/-- Witness for C10 with the link disconnected throughout. -/
theorem claimC10_witness :
    (BLEMessage.mk BLECommand.powerOff 1).command = BLECommand.powerOff ∧
    lowBatteryBLEEnv.power.usbConnected 0 = false ∧
    ((handleCommand lowBatteryBLEEnv false
        (BLEMessage.mk BLECommand.powerOff 1)).replies
        = [BLE_CMD_WAS_SUCCESSFUL] ∧
     (handleCommand lowBatteryBLEEnv false
        (BLEMessage.mk BLECommand.powerOff 1)).offWaitIters = 0 ∧
     (handleCommand lowBatteryBLEEnv false
        (BLEMessage.mk BLECommand.powerOff 1)).line = false) :=
  ⟨rfl, rfl,
   claimC10_power_off_idempotent lowBatteryBLEEnv false
     (BLEMessage.mk BLECommand.powerOff 1) rfl rfl⟩

/-- C8: with the watchdog enabled and no pending request, (a) when no
blocking condition holds, a periodic check latches a sleep request
exactly when the check interval has elapsed and the inactivity has
reached DEEP_SLEEP_WATCHDOG_TIMEOUT_MS — never earlier; (b) when a
blocking condition holds at a periodic check, the activity timer is
reset to the current time and no request is latched. -/
theorem claimC8_watchdog_latch (s : SysState) (t : ℕ)
    (sbcOn bleConn : Bool) (hEn : s.deepSleepEnabled = true)
    (hReq : s.deepSleepRequested = false) :
    (sbcOn = false → bleConn = false →
      ((updateDeepSleepWatchdog s t sbcOn bleConn).deepSleepRequested
          = true ↔
        (DEEP_SLEEP_ACTIVITY_RESET_INTERVAL_MS ≤ t - s.lastActivityCheck ∧
         DEEP_SLEEP_WATCHDOG_TIMEOUT_MS ≤ t - s.lastActivityTime))) ∧
    ((sbcOn = true ∨ bleConn = true) →
      DEEP_SLEEP_ACTIVITY_RESET_INTERVAL_MS ≤ t - s.lastActivityCheck →
      (updateDeepSleepWatchdog s t sbcOn bleConn).lastActivityTime = t ∧
      (updateDeepSleepWatchdog s t sbcOn bleConn).deepSleepRequested
          = false) := by
  constructor
  · intro hsbc hble
    subst hsbc hble
    simp only [updateDeepSleepWatchdog, shouldEnterDeepSleep,
      DEEP_SLEEP_ACTIVITY_RESET_INTERVAL_MS, DEEP_SLEEP_WATCHDOG_TIMEOUT_MS]
    split_ifs with h1 h2 h3 <;> simp_all
  · intro hblocked hcheck
    unfold updateDeepSleepWatchdog
    rw [if_pos hcheck]
    have hblk : shouldEnterDeepSleep sbcOn bleConn = false := by
      rcases hblocked with h | h <;> simp [shouldEnterDeepSleep, h]
    simp [hEn, hblk, hReq]

/-- Witness for C8: from a fresh state, the check at t = 30000 both
fires and latches the request; and with the SBC on the timer is
reset. -/
theorem claimC8_witness :
    sleepReadyState.deepSleepEnabled = true ∧
    sleepReadyState.deepSleepRequested = false ∧
    ((false = false → false = false →
       ((updateDeepSleepWatchdog sleepReadyState 30000 false
           false).deepSleepRequested = true ↔
         (DEEP_SLEEP_ACTIVITY_RESET_INTERVAL_MS ≤
             30000 - sleepReadyState.lastActivityCheck ∧
          DEEP_SLEEP_WATCHDOG_TIMEOUT_MS ≤
             30000 - sleepReadyState.lastActivityTime))) ∧
     ((false = true ∨ false = true) →
       DEEP_SLEEP_ACTIVITY_RESET_INTERVAL_MS ≤
           30000 - sleepReadyState.lastActivityCheck →
       (updateDeepSleepWatchdog sleepReadyState 30000 false
           false).lastActivityTime = 30000 ∧
       (updateDeepSleepWatchdog sleepReadyState 30000 false
           false).deepSleepRequested = false)) :=
  ⟨rfl, rfl, claimC8_watchdog_latch sleepReadyState 30000 false false rfl rfl⟩

/-- C1 counterexample: dispatching POWER_ON with the battery at 3 %
(below the 5 % admission minimum) replies with the success token "1",
not the failure token "0" — the POWER_ON branch of handleCommand
replies BLE_CMD_WAS_SUCCESSFUL unconditionally.  The physical line
does remain LOW. -/
theorem claimC1_reply_is_success_not_failure :
    lowBatteryBLEEnv.power.percentage < BATTERY_MIN_PERCENTAGE ∧
    (handleCommand lowBatteryBLEEnv false
        (BLEMessage.mk BLECommand.powerOn 1)).replies
      = [BLE_CMD_WAS_SUCCESSFUL] ∧
    BLE_CMD_WAS_SUCCESSFUL ≠ BLE_CMD_WAS_FAILURE ∧
    (handleCommand lowBatteryBLEEnv false
        (BLEMessage.mk BLECommand.powerOn 1)).line = false := by
  refine ⟨by norm_num [lowBatteryBLEEnv, BATTERY_MIN_PERCENTAGE], ?_, by decide, ?_⟩ <;>
    simp [handleCommand, trySetSBCPowerOn, trySetSBCPowerOff,
      lowBatteryBLEEnv, BATTERY_MIN_PERCENTAGE] <;>
    norm_num

/-- C1 (amended): when POWER_ON is dispatched while the published
battery percentage is below the admission minimum and the line is
LOW, the sequencer aborts (the line stays LOW, a blocked/off status
indication is emitted before the handler's own power-on indication),
but the reply sent to the client is the success token "1": the
handler acknowledges the command unconditionally and the outcome is
observable only through the status indications. -/
theorem claimC1_low_battery_aborts_but_acks (env : BLEEnv) (line : Bool)
    (msg : BLEMessage) (hcmd : msg.command = BLECommand.powerOn)
    (hpct : env.power.percentage < BATTERY_MIN_PERCENTAGE)
    (hline : line = false) :
    (handleCommand env line msg).replies = [BLE_CMD_WAS_SUCCESSFUL] ∧
    (handleCommand env line msg).line = false ∧
    (handleCommand env line msg).statuses
      = [StatusCode.powerOff, StatusCode.powerOn] := by
  have hcan : decide (env.power.percentage ≥ BATTERY_MIN_PERCENTAGE)
      = false := by
    simp [decide_eq_false_iff_not]
    exact hpct
  cases msg with
  | mk command dataCount =>
    cases hcmd
    subst hline
    simp [handleCommand, trySetSBCPowerOn, hcan]

/-- Witness for the amended C1 at the concrete 3 % environment. -/
theorem claimC1_witness :
    (BLEMessage.mk BLECommand.powerOn 1).command = BLECommand.powerOn ∧
    lowBatteryBLEEnv.power.percentage < BATTERY_MIN_PERCENTAGE ∧
    ((handleCommand lowBatteryBLEEnv false
        (BLEMessage.mk BLECommand.powerOn 1)).replies
        = [BLE_CMD_WAS_SUCCESSFUL] ∧
     (handleCommand lowBatteryBLEEnv false
        (BLEMessage.mk BLECommand.powerOn 1)).line = false ∧
     (handleCommand lowBatteryBLEEnv false
        (BLEMessage.mk BLECommand.powerOn 1)).statuses
        = [StatusCode.powerOff, StatusCode.powerOn]) :=
  ⟨rfl, by norm_num [lowBatteryBLEEnv, BATTERY_MIN_PERCENTAGE],
   claimC1_low_battery_aborts_but_acks lowBatteryBLEEnv false
     (BLEMessage.mk BLECommand.powerOn 1) rfl
     (by norm_num [lowBatteryBLEEnv, BATTERY_MIN_PERCENTAGE]) rfl⟩

/-- C2 counterexample: a binary frame with valid magic, protocol
version and length but an unrecognized command byte (0x04) leaves the
pending-response slot unchanged — no response is staged for it, so it
receives no reply, contrary to the claim that only integrity-field
mismatches go unanswered. -/
theorem claimC2_unknown_command_gets_no_reply :
    unknownCmdPacket.magic = PROTOCOL_MAGIC ∧
    unknownCmdPacket.protocol_version = PROTOCOL_VERSION ∧
    handleVendorReport emptyVendorEnv VENDOR_REPORT_ID VENDOR_PACKET_SIZE
      unknownCmdPacket emptySlot = emptySlot ∧
    emptySlot.ready = false := by
  refine ⟨by decide, by decide, ?_, by decide⟩
  decide

/-- C2 (amended): every text command that reaches the dispatcher
produces exactly one reply; a binary frame stages a response exactly
when its integrity fields match AND its command byte is one of the
recognized commands (an integrity-valid frame with an unrecognized
command byte stages nothing); frames with a wrong report id or
length are dropped; and an inbound text write is queued for dispatch
exactly when its length is between 1 and 127 bytes — empty or
over-length writes are dropped without reply. -/
theorem claimC2_reply_discipline (benv : BLEEnv) (line : Bool)
    (msg : BLEMessage) (env : VendorEnv) (slot : VendorSlot)
    (req : VendorPacket) (rid len : ℕ) (raw : List Char)
    (hready : slot.ready = false)
    (hbad : rid ≠ VENDOR_REPORT_ID ∨ len ≠ VENDOR_PACKET_SIZE) :
    (handleCommand benv line msg).replies.length = 1 ∧
    ((handleVendorReport env VENDOR_REPORT_ID VENDOR_PACKET_SIZE req
        slot).ready = true ↔
      (req.magic = PROTOCOL_MAGIC ∧
       req.protocol_version = PROTOCOL_VERSION ∧
       (req.command = CMD_PING ∨ req.command = CMD_GET_STATUS ∨
        req.command = CMD_GET_INFO))) ∧
    handleVendorReport env rid len req slot = slot ∧
    (onWriteQueued raw = true ↔ (0 < raw.length ∧ raw.length < 128)) := by
  refine ⟨?_, ?_, ?_, ?_⟩
  · cases msg with
    | mk command dataCount =>
      cases command <;> simp [handleCommand, hidCase] <;> split_ifs <;> rfl
  · unfold handleVendorReport
    rw [if_neg (by simp [DISABLE_USB_HID])]
    by_cases hmagic : req.magic = PROTOCOL_MAGIC
    · by_cases hver : req.protocol_version = PROTOCOL_VERSION
      · rw [if_neg (by simp [hmagic, hver])]
        by_cases h1 : req.command = CMD_PING
        · simp [h1, handlePingCommand, sendVendorResponse, hmagic, hver]
        · by_cases h2 : req.command = CMD_GET_STATUS
          · simp [h1, h2, handleGetStatusCommand, sendVendorResponse,
              hmagic, hver, CMD_PING, CMD_GET_STATUS]
          · by_cases h3 : req.command = CMD_GET_INFO
            · simp [h1, h2, h3, handleGetInfoCommand, sendVendorResponse,
                hmagic, hver, CMD_PING, CMD_GET_STATUS, CMD_GET_INFO]
            · simp [h1, h2, h3, hready]
      · rw [if_pos (Or.inr hver)]
        simp [hready, hver]
    · rw [if_pos (Or.inl hmagic)]
      simp [hready, hmagic]
  · unfold handleVendorReport
    rw [if_pos (by simp [DISABLE_USB_HID]; tauto)]
  · simp [onWriteQueued]

/-- Witness for the amended C2 at concrete inputs: a ping frame, a
mismatched report id, and a three-byte text write. -/
theorem claimC2_witness :
    emptySlot.ready = false ∧
    ((5 : ℕ) ≠ VENDOR_REPORT_ID ∨ (32 : ℕ) ≠ VENDOR_PACKET_SIZE) ∧
    ((handleCommand lowBatteryBLEEnv false
        (BLEMessage.mk BLECommand.help 1)).replies.length = 1 ∧
     ((handleVendorReport emptyVendorEnv VENDOR_REPORT_ID
         VENDOR_PACKET_SIZE pingPacket emptySlot).ready = true ↔
       (pingPacket.magic = PROTOCOL_MAGIC ∧
        pingPacket.protocol_version = PROTOCOL_VERSION ∧
        (pingPacket.command = CMD_PING ∨
         pingPacket.command = CMD_GET_STATUS ∨
         pingPacket.command = CMD_GET_INFO))) ∧
     handleVendorReport emptyVendorEnv 5 32 pingPacket emptySlot
        = emptySlot ∧
     (onWriteQueued ['o', 'n', 'e'] = true ↔
       (0 < (['o', 'n', 'e'] : List Char).length ∧
        (['o', 'n', 'e'] : List Char).length < 128))) :=
  ⟨by decide, by decide,
   claimC2_reply_discipline lowBatteryBLEEnv false
     (BLEMessage.mk BLECommand.help 1) emptyVendorEnv emptySlot pingPacket
     5 32 ['o', 'n', 'e'] (by decide) (by decide)⟩

/-- C7: with the battery discharging (battery current negative), the
charge-time estimate is 0 whenever the net current
(chargerCurrent + batteryCurrent) is non-positive, whenever the
charger voltage is below the minimum charging voltage, or whenever
the percentage is at or above the full threshold; and when all the
admission guards pass, the estimate is the linear projection computed
from the net current, not from the raw charger current. -/
theorem claimC7_charge_eta_uses_net_current (chargerCurrent chargerVoltage
    batteryCurrent batteryVoltage percentage : ℚ)
    (hneg : batteryCurrent < 0) :
    (chargerCurrent + batteryCurrent ≤ 0 →
      calculateEstimatedTimeToFullyCharge chargerCurrent chargerVoltage
        batteryCurrent batteryVoltage percentage = 0) ∧
    (chargerVoltage < MIN_BATTERY_CHARGING_VOLTAGE →
      calculateEstimatedTimeToFullyCharge chargerCurrent chargerVoltage
        batteryCurrent batteryVoltage percentage = 0) ∧
    (percentage ≥ 99 →
      calculateEstimatedTimeToFullyCharge chargerCurrent chargerVoltage
        batteryCurrent batteryVoltage percentage = 0) ∧
    (MIN_BATTERY_CHARGING_VOLTAGE ≤ chargerVoltage → 1/100 < chargerCurrent →
      percentage < 99 → 1/100 < chargerCurrent + batteryCurrent →
      calculateEstimatedTimeToFullyCharge chargerCurrent chargerVoltage
        batteryCurrent batteryVoltage percentage =
      (⌊(100 - percentage) /
          ((chargerCurrent + batteryCurrent) * 1000 * 100 /
            BATTERY_CAPACITY_MAH) * 3600⌋).toNat) := by
  have hnotge : ¬ batteryCurrent ≥ 0 := not_le.mpr hneg
  have hite : (if batteryCurrent ≥ 0 then batteryCurrent
      else chargerCurrent + batteryCurrent)
      = chargerCurrent + batteryCurrent := if_neg hnotge
  refine ⟨?_, ?_, ?_, ?_⟩
  · intro hnet
    simp only [calculateEstimatedTimeToFullyCharge, hite]
    split_ifs with h1 h2 h3 h4 h5 <;>
      first
        | rfl
        | exact absurd ⟨hneg, by linarith⟩ h4
  · intro hv
    simp only [calculateEstimatedTimeToFullyCharge, hite]
    rw [if_pos hv]
  · intro hp
    simp only [calculateEstimatedTimeToFullyCharge, hite]
    split_ifs <;> first | rfl | exact absurd hp (by assumption)
  · intro hv hcc hp hnet
    have hposnet : (0 : ℚ) <
        (chargerCurrent + batteryCurrent) * 1000 * 100 /
          BATTERY_CAPACITY_MAH := by
      rw [BATTERY_CAPACITY_MAH]
      apply div_pos (by linarith) (by norm_num)
    simp only [calculateEstimatedTimeToFullyCharge, hite]
    rw [if_neg (not_lt.mpr hv), if_neg (not_le.mpr hcc),
      if_neg (not_le.mpr hp),
      if_neg (fun h => absurd h.2 (not_le.mpr hnet)),
      if_neg (not_le.mpr hposnet)]

/-- Witness for C7: a 2 A charger against a 0.5 A net discharge at
50 % yields the net-current projection of 5400 s. -/
theorem claimC7_witness :
    (-(1/2) : ℚ) < 0 ∧
    ((2 + -(1/2) : ℚ) ≤ 0 →
      calculateEstimatedTimeToFullyCharge 2 5 (-(1/2)) 4 50 = 0) ∧
    ((5 : ℚ) < MIN_BATTERY_CHARGING_VOLTAGE →
      calculateEstimatedTimeToFullyCharge 2 5 (-(1/2)) 4 50 = 0) ∧
    ((50 : ℚ) ≥ 99 →
      calculateEstimatedTimeToFullyCharge 2 5 (-(1/2)) 4 50 = 0) ∧
    (MIN_BATTERY_CHARGING_VOLTAGE ≤ (5 : ℚ) → (1/100 : ℚ) < 2 →
      (50 : ℚ) < 99 → (1/100 : ℚ) < 2 + -(1/2) →
      calculateEstimatedTimeToFullyCharge 2 5 (-(1/2)) 4 50 =
      (⌊(100 - (50 : ℚ)) /
          ((2 + -(1/2)) * 1000 * 100 / BATTERY_CAPACITY_MAH) * 3600⌋).toNat) :=
  ⟨by norm_num,
   claimC7_charge_eta_uses_net_current 2 5 (-(1/2)) 4 50 (by norm_num)⟩

/-- Auxiliary: the cap sendResponse computes is always at least 1. -/
theorem bleMaxPacketSize_pos (mtu : ℕ) : 1 ≤ bleMaxPacketSize mtu := by
  simp only [bleMaxPacketSize]
  split_ifs <;> omega

/-- Auxiliary: the chunking loop reassembles to the original response
(each chunk is the next contiguous slice). -/
theorem chunkLoop_flatten (cap : ℕ) :
    ∀ (n : ℕ) (l : List Char), l.length ≤ n →
      (chunkLoop cap l).flatten = l := by
  intro n
  induction n with
  | zero =>
    intro l hl
    rw [Nat.le_zero, List.length_eq_zero] at hl
    subst hl
    simp [chunkLoop]
  | succ n ih =>
    intro l hl
    cases l with
    | nil => simp [chunkLoop]
    | cons x xs =>
      rw [List.length_cons] at hl
      rw [chunkLoop, List.flatten_cons, List.cons_append,
        ih (xs.drop (cap - 1)) (by rw [List.length_drop]; omega),
        List.take_append_drop]

/-- Auxiliary: with a positive cap, every chunk the loop emits is at
most the cap long. -/
theorem chunkLoop_length_le (cap : ℕ) (hcap : 1 ≤ cap) :
    ∀ (n : ℕ) (l : List Char), l.length ≤ n →
      ∀ c ∈ chunkLoop cap l, c.length ≤ cap := by
  intro n
  induction n with
  | zero =>
    intro l hl
    rw [Nat.le_zero, List.length_eq_zero] at hl
    subst hl
    intro c hc
    simp [chunkLoop] at hc
  | succ n ih =>
    intro l hl c hc
    cases l with
    | nil => simp [chunkLoop] at hc
    | cons x xs =>
      rw [chunkLoop] at hc
      rcases List.mem_cons.mp hc with h | h
      · subst h
        simp only [List.length_cons, List.length_take]
        omega
      · exact ih (xs.drop (cap - 1))
          (by rw [List.length_drop]; rw [List.length_cons] at hl; omega) c h

/-- C4: for every response longer than the negotiated cap, the chunks
sendResponse emits are contiguous slices whose concatenation equals
the original response byte-for-byte, and no chunk exceeds the cap. -/
theorem claimC4_chunks_reassemble (mtu : ℕ) (response : List Char)
    (hlong : bleMaxPacketSize mtu < response.length) :
    (sendResponseChunks mtu response).flatten = response ∧
    ∀ c ∈ sendResponseChunks mtu response,
      c.length ≤ bleMaxPacketSize mtu := by
  unfold sendResponseChunks
  rw [if_neg (not_le.mpr hlong)]
  exact ⟨chunkLoop_flatten _ response.length response le_rfl,
    chunkLoop_length_le _ (bleMaxPacketSize_pos mtu) response.length
      response le_rfl⟩

/-- Witness for C4: a 45-byte response over the default 23-byte MTU
(cap 20) splits into chunks of 20, 20 and 5 bytes. -/
theorem claimC4_witness :
    bleMaxPacketSize 23 < (List.replicate 45 'a').length ∧
    ((sendResponseChunks 23 (List.replicate 45 'a')).flatten
        = List.replicate 45 'a' ∧
     ∀ c ∈ sendResponseChunks 23 (List.replicate 45 'a'),
       c.length ≤ bleMaxPacketSize 23) :=
  ⟨by decide, claimC4_chunks_reassemble 23 (List.replicate 45 'a')
    (by decide)⟩

/-! ### Lemmas about the calibration-table scan -/

/-- The interpolation value of a segment at its left endpoint is its
left percentage. -/
theorem segVal_at_v0 (s : Segment) : segVal s s.v0 = s.p0 := by
  unfold segVal
  rw [sub_self, zero_div, zero_mul, add_zero]

/-- The interpolation value of a rising segment at its right endpoint
is its right percentage. -/
theorem segVal_at_v1 (s : Segment) (h01 : s.v0 < s.v1) :
    segVal s s.v1 = s.p1 := by
  unfold segVal
  rw [div_self (by linarith : s.v1 - s.v0 ≠ 0)]
  ring

/-- Segment interpolation is monotone for a rising, non-decreasing
segment. -/
theorem segVal_mono (s : Segment) (h01 : s.v0 < s.v1) (hp : s.p0 ≤ s.p1)
    {v w : ℚ} (hvw : v ≤ w) : segVal s v ≤ segVal s w := by
  unfold segVal
  have hc : (0 : ℚ) < s.v1 - s.v0 := by linarith
  have hd : (0 : ℚ) ≤ s.p1 - s.p0 := by linarith
  have := mul_le_mul_of_nonneg_right
    ((div_le_div_iff_of_pos_right hc).mpr (by linarith : v - s.v0 ≤ w - s.v0)) hd
  linarith

/-- Within a rising segment the value is at most the right
percentage. -/
theorem segVal_le_p1 (s : Segment) (h01 : s.v0 < s.v1) (hp : s.p0 ≤ s.p1)
    {v : ℚ} (hv : v ≤ s.v1) : segVal s v ≤ s.p1 := by
  calc segVal s v ≤ segVal s s.v1 := segVal_mono s h01 hp hv
    _ = s.p1 := segVal_at_v1 s h01

/-- At or beyond the left endpoint the value is at least the left
percentage. -/
theorem segVal_ge_p0 (s : Segment) (h01 : s.v0 < s.v1) (hp : s.p0 ≤ s.p1)
    {v : ℚ} (hv : s.v0 ≤ v) : s.p0 ≤ segVal s v := by
  have : (0 : ℚ) ≤ (v - s.v0) / (s.v1 - s.v0) * (s.p1 - s.p0) :=
    mul_nonneg (div_nonneg (by linarith) (by linarith)) (by linarith)
  unfold segVal
  linarith

/-- The head segment of a well-formed chain rises and does not
decrease. -/
theorem segChainOk_head {s : Segment} {rest : List Segment}
    (h : segChainOk (s :: rest) = true) : s.v0 < s.v1 ∧ s.p0 ≤ s.p1 := by
  cases rest <;>
    simp only [segChainOk, Bool.and_eq_true, decide_eq_true_eq] at h <;>
    tauto

/-- The tail of a well-formed chain is well-formed. -/
theorem segChainOk_tail {s : Segment} {rest : List Segment}
    (h : segChainOk (s :: rest) = true) : segChainOk rest = true := by
  cases rest with
  | nil => rfl
  | cons t r =>
    simp only [segChainOk, Bool.and_eq_true] at h
    exact h.2

/-- Consecutive chain segments share their endpoint. -/
theorem segChainOk_link {s t : Segment} {rest : List Segment}
    (h : segChainOk (s :: t :: rest) = true) :
    t.v0 = s.v1 ∧ t.p0 = s.p1 := by
  simp only [segChainOk, Bool.and_eq_true, decide_eq_true_eq] at h
  tauto

/-- Unfolding equation for the scan on a non-empty chain, phrased
with segVal. -/
theorem interpScan_cons (v : ℚ) (s : Segment) (rest : List Segment) :
    interpScan v (s :: rest) =
      if s.v0 ≤ v ∧ v ≤ s.v1 then some (segVal s v)
      else interpScan v rest := by
  rw [interpScan, segVal]

/-- A voltage the scan resolves lies at or beyond the chain's first
voltage. -/
theorem interpScan_ge_lowV :
    ∀ {segs : List Segment} {v r : ℚ}, segChainOk segs = true →
      interpScan v segs = some r → lowV segs ≤ v := by
  intro segs
  induction segs with
  | nil => intro v r _ hscan; simp [interpScan] at hscan
  | cons s rest ih =>
    intro v r hchain hscan
    rw [interpScan_cons] at hscan
    by_cases hcond : s.v0 ≤ v ∧ v ≤ s.v1
    · exact hcond.1
    · rw [if_neg hcond] at hscan
      have htail := ih (segChainOk_tail hchain) hscan
      cases rest with
      | nil => simp [interpScan] at hscan
      | cons t r' =>
        have hlink := segChainOk_link hchain
        have hhead := segChainOk_head hchain
        simp only [lowV] at htail ⊢
        linarith [hlink.1 ▸ htail]

/-- A value the scan produces lies at or above the chain's first
percentage. -/
theorem interpScan_ge_lowP :
    ∀ {segs : List Segment} {v r : ℚ}, segChainOk segs = true →
      interpScan v segs = some r → lowP segs ≤ r := by
  intro segs
  induction segs with
  | nil => intro v r _ hscan; simp [interpScan] at hscan
  | cons s rest ih =>
    intro v r hchain hscan
    have hhead := segChainOk_head hchain
    rw [interpScan_cons] at hscan
    by_cases hcond : s.v0 ≤ v ∧ v ≤ s.v1
    · rw [if_pos hcond, Option.some_inj] at hscan
      subst hscan
      exact segVal_ge_p0 s hhead.1 hhead.2 hcond.1
    · rw [if_neg hcond] at hscan
      have htail := ih (segChainOk_tail hchain) hscan
      cases rest with
      | nil => simp [interpScan] at hscan
      | cons t r' =>
        have hlink := segChainOk_link hchain
        simp only [lowP] at htail ⊢
        linarith [hlink.2 ▸ htail]

/-- Monotonicity of the scanning interpolation over a well-formed
chain: larger voltages resolve to values at least as large. -/
theorem interpScan_mono :
    ∀ {segs : List Segment} {v w rv rw : ℚ}, segChainOk segs = true →
      v ≤ w → interpScan v segs = some rv →
      interpScan w segs = some rw → rv ≤ rw := by
  intro segs
  induction segs with
  | nil => intro v w rv rw _ _ hv _; simp [interpScan] at hv
  | cons s rest ih =>
    intro v w rv rw hchain hvw hv hw
    have hhead := segChainOk_head hchain
    rw [interpScan_cons] at hv hw
    by_cases hcv : s.v0 ≤ v ∧ v ≤ s.v1
    · rw [if_pos hcv, Option.some_inj] at hv
      subst hv
      by_cases hcw : s.v0 ≤ w ∧ w ≤ s.v1
      · rw [if_pos hcw, Option.some_inj] at hw
        subst hw
        exact segVal_mono s hhead.1 hhead.2 hvw
      · rw [if_neg hcw] at hw
        cases rest with
        | nil => simp [interpScan] at hw
        | cons t r' =>
          have hlink := segChainOk_link hchain
          have hrw : lowP (t :: r') ≤ rw :=
            interpScan_ge_lowP (segChainOk_tail hchain) hw
          simp only [lowP] at hrw
          have h1 : segVal s v ≤ s.p1 := segVal_le_p1 s hhead.1 hhead.2 hcv.2
          linarith [hlink.2 ▸ hrw]
    · rw [if_neg hcv] at hv
      cases rest with
      | nil => simp [interpScan] at hv
      | cons t r' =>
        have hlink := segChainOk_link hchain
        have hthead := segChainOk_head (segChainOk_tail hchain)
        have hv0 : lowV (t :: r') ≤ v :=
          interpScan_ge_lowV (segChainOk_tail hchain) hv
        simp only [lowV] at hv0
        by_cases hcw : s.v0 ≤ w ∧ w ≤ s.v1
        · -- only possible at the shared endpoint v = w = s.v1
          have hveq : v = s.v1 := le_antisymm (hvw.trans hcw.2) (hlink.1 ▸ hv0)
          have hweq : w = s.v1 := le_antisymm hcw.2 (hveq ▸ hvw)
          rw [if_pos hcw, Option.some_inj] at hw
          subst hw
          rw [interpScan_cons, if_pos ⟨by rw [hlink.1, hveq],
            by rw [hveq, ← hlink.1]; exact le_of_lt hthead.1⟩,
            Option.some_inj] at hv
          subst hv
          have h2 : segVal t v = t.p0 := by
            rw [hveq, ← hlink.1]
            exact segVal_at_v0 t
          rw [h2, hlink.2, hweq, segVal_at_v1 s hhead.1]
        · rw [if_neg hcw] at hw
          exact ih (segChainOk_tail hchain) hvw hv hw

/-- Coverage: every voltage between the first and last table voltage
is resolved by the scan. -/
theorem interpScan_isSome :
    ∀ {rest : List Segment} {s : Segment} {v : ℚ},
      segChainOk (s :: rest) = true → lowV (s :: rest) ≤ v →
      v ≤ hiV (s :: rest) → (interpScan v (s :: rest)).isSome = true := by
  intro rest
  induction rest with
  | nil =>
    intro s v hchain hlo hhi
    rw [interpScan_cons, if_pos ⟨hlo, hhi⟩]
    rfl
  | cons t r' ih =>
    intro s v hchain hlo hhi
    by_cases hv1 : v ≤ s.v1
    · rw [interpScan_cons, if_pos ⟨hlo, hv1⟩]
      rfl
    · rw [interpScan_cons, if_neg (fun h => hv1 h.2)]
      have hlink := segChainOk_link hchain
      exact ih (segChainOk_tail hchain)
        (by simp only [lowV]; rw [hlink.1]; linarith) hhi

/-- The clamp keeps values in [0, 100]. -/
theorem clampPercent_mem (x : ℚ) :
    0 ≤ clampPercent x ∧ clampPercent x ≤ 100 := by
  unfold clampPercent
  split_ifs <;> constructor <;> linarith

/-- The clamp is monotone. -/
theorem clampPercent_mono {x y : ℚ} (hxy : x ≤ y) :
    clampPercent x ≤ clampPercent y := by
  unfold clampPercent
  split_ifs <;> linarith

/-- The LiPo table is a well-formed chain. -/
theorem lipoSegments_chainOk : segChainOk lipoSegments = true := by
  simp only [lipoSegments, segChainOk, Bool.and_eq_true, decide_eq_true_eq]
  norm_num

/-- The table's interior voltages are resolved by the scan. -/
theorem lipoScan_isSome {v : ℚ} (h3 : 3 ≤ v) (h42 : v ≤ 42/10) :
    (interpScan v lipoSegments).isSome = true := by
  have : lowV lipoSegments = 3 := rfl
  have : hiV lipoSegments = 42/10 := rfl
  exact interpScan_isSome lipoSegments_chainOk h3 h42

/-- The base interpolation of calculateBatteryPercentage is monotone
on the table's range. -/
theorem lipoBase_mono {v w : ℚ} (h3 : 3 ≤ v) (hvw : v ≤ w)
    (h42 : w ≤ 42/10) :
    (interpScan v lipoSegments).getD 0 ≤ (interpScan w lipoSegments).getD 0 := by
  obtain ⟨rv, hrv⟩ := Option.isSome_iff_exists.mp
    (lipoScan_isSome h3 (hvw.trans h42))
  obtain ⟨rw', hrw⟩ := Option.isSome_iff_exists.mp
    (lipoScan_isSome (h3.trans hvw) h42)
  rw [hrv, hrw]
  exact interpScan_mono lipoSegments_chainOk hvw hrv hrw

/-- C3 counterexample: with a fixed current of −1 A (sag compensation
active), the interior voltages 4.1 V and 4.15 V violate monotonicity:
the computed percentage at 4.1 V is 100 while at the larger 4.15 V it
is 97.5 — the compensated voltage 4.25 V falls outside the table and
the compensation silently drops to zero. -/
theorem claimC3_sag_breaks_monotonicity :
    (3 : ℚ) ≤ 41/10 ∧ (41/10 : ℚ) < 83/20 ∧ (83/20 : ℚ) < 42/10 ∧
    (-1 : ℚ) < -(1/2) ∧
    calculateBatteryPercentage (-1) (41/10) = 100 ∧
    calculateBatteryPercentage (-1) (83/20) = 195/2 ∧
    calculateBatteryPercentage (-1) (83/20) <
      calculateBatteryPercentage (-1) (41/10) := by
  refine ⟨by norm_num, by norm_num, by norm_num, by norm_num, ?_, ?_, ?_⟩ <;>
    norm_num [calculateBatteryPercentage, interpScan, lipoSegments,
      clampPercent]

/-- C3 (amended): percentages clamp to 0 below 3.0 V and to 100 at or
above 4.2 V, and always lie within [0, 100]; and monotonicity in
voltage holds at any fixed current of at least −0.5 A (where no sag
compensation applies).  With sag compensation active (current below
−0.5 A) monotonicity can fail near the top of the table. -/
theorem claimC3_percentage_shape (c v w : ℚ) (hvw : v ≤ w) :
    (v < 3 → calculateBatteryPercentage c v = 0) ∧
    (42/10 ≤ v → calculateBatteryPercentage c v = 100) ∧
    (0 ≤ calculateBatteryPercentage c v ∧
      calculateBatteryPercentage c v ≤ 100) ∧
    (-(1/2) ≤ c →
      calculateBatteryPercentage c v ≤ calculateBatteryPercentage c w) := by
  have hrange : ∀ x : ℚ, 0 ≤ calculateBatteryPercentage c x ∧
      calculateBatteryPercentage c x ≤ 100 := by
    intro x
    simp only [calculateBatteryPercentage]
    split_ifs with h1 h2 h3
    · norm_num
    · norm_num
    · exact clampPercent_mem _
    · exact clampPercent_mem _
  refine ⟨?_, ?_, hrange v, ?_⟩
  · intro h
    simp only [calculateBatteryPercentage, if_pos h]
  · intro h
    simp only [calculateBatteryPercentage,
      if_neg (by linarith : ¬ v < 3), if_pos h]
  · intro hc
    have hcomp : ¬ c < -(1/2) := not_lt.mpr hc
    by_cases hv3 : v < 3
    · rw [(by simp only [calculateBatteryPercentage, if_pos hv3] :
        calculateBatteryPercentage c v = 0)]
      exact (hrange w).1
    · by_cases hw42 : 42/10 ≤ w
      · rw [(by simp only [calculateBatteryPercentage,
            if_neg (by linarith : ¬ w < 3), if_pos hw42] :
          calculateBatteryPercentage c w = 100)]
        exact (hrange v).2
      · have hv42 : ¬ 42/10 ≤ v := fun h => hw42 (le_trans h hvw)
        have hw3 : ¬ w < 3 := fun h => hv3 (lt_of_le_of_lt hvw h)
        simp only [calculateBatteryPercentage, if_neg hv3, if_neg hv42,
          if_neg hw3, if_neg hw42, if_neg hcomp, add_zero]
        exact clampPercent_mono
          (lipoBase_mono (not_lt.mp hv3) hvw (le_of_not_le hw42))

/-- Witness for the amended C3 at current 0 and voltages 3.5 and
3.7. -/
theorem claimC3_witness :
    (7/2 : ℚ) ≤ 37/10 ∧
    (((7/2 : ℚ) < 3 → calculateBatteryPercentage 0 (7/2) = 0) ∧
     ((42/10 : ℚ) ≤ 7/2 → calculateBatteryPercentage 0 (7/2) = 100) ∧
     (0 ≤ calculateBatteryPercentage 0 (7/2) ∧
       calculateBatteryPercentage 0 (7/2) ≤ 100) ∧
     (-(1/2) ≤ (0 : ℚ) →
       calculateBatteryPercentage 0 (7/2) ≤
         calculateBatteryPercentage 0 (37/10))) :=
  ⟨by norm_num, claimC3_percentage_shape 0 (7/2) (37/10) (by norm_num)⟩

end GripDeck
